import Mathlib

/-!
Verification development for the tsm-kartel remote-sync subsystem.

Shallow embedding of:
  - src/api/src/utils/decorators.py     (with_retries)
  - src/api/src/clients/sftp_client.py  (SFTPClient: _connect, _close, download_file)
  - src/api/src/clients/sftp_manager.py (SFTPManager.download_player_stats_db, download lock)

Machine integers do not occur; delays are modelled as rationals, byte
strings as lists of naturals, and the event loop as explicit environment
records describing the outcome of each external operation.
-/

namespace TsmKartel

/-! ## Retry wrapper (src/api/src/utils/decorators.py, with_retries) -/

/-- Outcome of one invocation of the wrapped operation: a return value,
a failure of one of the configured retryable kinds, or a failure of a
kind outside the configured tuple (which the wrapper does not catch). -/
inductive OpOutcome (α ε : Type) where
  | ok (a : α)
  | fail (e : ε)
  | failOther (e : ε)
  deriving DecidableEq, Repr

/-- Result of a whole wrapped call: a value, a retryable failure
re-raised after exhaustion, a non-retryable failure propagated at once,
or the generic AppError raised when the loop body never ran. -/
inductive RetryResult (α ε : Type) where
  | ok (a : α)
  | raised (e : ε)
  | propagated (e : ε)
  | appError (msg : String)
  deriving DecidableEq, Repr

/-- Trace of one wrapped call: how many times the operation was invoked,
the sleep durations performed between attempts, and the final result. -/
structure RetryTrace (α ε : Type) where
  invocations : Nat
  sleeps : List ℚ
  result : RetryResult α ε
  deriving DecidableEq, Repr

/-- Loop body of with_retries (decorators.py lines 32-56).  `fuel` is the
number of iterations left of `for attempt in range(max_retries)`,
`attempt` the current 0-based python loop index, `curDelay` the running
`current_delay`, `lastError` the `last_error` variable.  On a retryable
failure with iterations remaining it sleeps `curDelay` and multiplies it
by `backoff`; on the last iteration the failure is recorded and re-raised
after the loop. -/
def withRetriesGo {α ε : Type} (op : Nat → OpOutcome α ε) (backoff : ℚ)
    (exhaustMsg : String) :
    Nat → Nat → ℚ → Option ε → RetryTrace α ε
  | 0, _, _, lastError =>
    { invocations := 0, sleeps := [],
      result := match lastError with
        | some e => RetryResult.raised e
        | none => RetryResult.appError exhaustMsg }
  | fuel + 1, attempt, curDelay, _ =>
    match op attempt with
    | OpOutcome.ok a =>
      { invocations := 1, sleeps := [], result := RetryResult.ok a }
    | OpOutcome.failOther e =>
      { invocations := 1, sleeps := [], result := RetryResult.propagated e }
    | OpOutcome.fail e =>
      match fuel with
      | 0 =>
        { invocations := 1, sleeps := [], result := RetryResult.raised e }
      | f + 1 =>
        let rest := withRetriesGo op backoff exhaustMsg (f + 1) (attempt + 1)
          (curDelay * backoff) (some e)
        { invocations := rest.invocations + 1,
          sleeps := curDelay :: rest.sleeps,
          result := rest.result }

/-- Embedding of with_retries(max_retries, delay, backoff, exceptions)
applied to an operation whose successive invocation outcomes are given by
`op`.  `maxRetries` is a python int, so the range is empty when it is
non-positive and the final AppError branch fires. -/
def with_retries {α ε : Type} (maxRetries : Int) (delay backoff : ℚ)
    (op : Nat → OpOutcome α ε) : RetryTrace α ε :=
  withRetriesGo op backoff
    ("All " ++ toString maxRetries ++ " attempts failed")
    maxRetries.toNat 0 delay none

/-- If every invocation up to the fuel bound fails retryably, the loop
re-raises the failure of the last invocation performed. -/
theorem withRetriesGo_allFail {α ε : Type} (op : Nat → OpOutcome α ε) (b : ℚ)
    (m : String) (es : Nat → ε) :
    ∀ (fuel : Nat), 0 < fuel → ∀ (attempt : Nat) (cd : ℚ) (last : Option ε),
      (∀ i, i < fuel → op (attempt + i) = OpOutcome.fail (es (attempt + i))) →
      (withRetriesGo op b m fuel attempt cd last).result
        = RetryResult.raised (es (attempt + fuel - 1)) := by
  intro fuel
  induction fuel with
  | zero => intro h; exact absurd h (by omega)
  | succ f ih =>
    intro _ attempt cd last hops
    have h0 : op attempt = OpOutcome.fail (es attempt) := by
      have := hops 0 (by omega)
      simpa using this
    cases f with
    | zero =>
      rw [withRetriesGo, h0]
      exact rfl
    | succ f' =>
      have hrest := ih (by omega) (attempt + 1) (cd * b) (some (es attempt))
        (by
          intro i hi
          have heq : attempt + 1 + i = attempt + (i + 1) := by omega
          rw [heq]
          exact hops (i + 1) (by omega))
      have hstep :
          (withRetriesGo op b m (f' + 1 + 1) attempt cd last).result
            = (withRetriesGo op b m (f' + 1) (attempt + 1) (cd * b)
                (some (es attempt))).result := by
        rw [withRetriesGo, h0]
      rw [hstep, hrest]
      congr 1
      congr 1
      omega

/-- C6: with max retries 3, an operation failing retryably twice then
succeeding is invoked exactly 3 times, the success value is returned, the
sleeps are the base delay then delay times backoff; and an operation that
fails retryably on all n invocations has its last failure re-raised. -/
theorem C6_retry_wrapper {α ε : Type} (op g : Nat → OpOutcome α ε) (d b : ℚ)
    (e0 e1 : ε) (a : α) (n : Nat) (es : Nat → ε)
    (h0 : op 0 = OpOutcome.fail e0) (h1 : op 1 = OpOutcome.fail e1)
    (h2 : op 2 = OpOutcome.ok a) (hn : 0 < n)
    (hg : ∀ i, i < n → g i = OpOutcome.fail (es i)) :
    (with_retries 3 d b op).invocations = 3 ∧
    (with_retries 3 d b op).result = RetryResult.ok a ∧
    (with_retries 3 d b op).sleeps = [d, d * b] ∧
    (with_retries (n : Int) d b g).result = RetryResult.raised (es (n - 1)) := by
  refine ⟨?_, ?_, ?_, ?_⟩
  · simp [with_retries, withRetriesGo, h0, h1, h2]
  · simp [with_retries, withRetriesGo, h0, h1, h2]
  · simp [with_retries, withRetriesGo, h0, h1, h2]
  · have ht : ((n : Int)).toNat = n := Int.toNat_natCast n
    unfold with_retries
    rw [ht]
    have := withRetriesGo_allFail g b
      ("All " ++ toString (n : Int) ++ " attempts failed") es n hn 0 d none
      (by intro i hi; simpa using hg i hi)
    simpa using this

/-- Concrete operation for the retry-wrapper witnesses: fails with error
codes 7 and 8 on the first two invocations, then returns 42. -/
def c6op : Nat → OpOutcome Nat Nat := fun i =>
  if i = 0 then OpOutcome.fail 7
  else if i = 1 then OpOutcome.fail 8
  else OpOutcome.ok 42

/-- Error codes for the always-failing witness operation. -/
def c6es : Nat → Nat := fun i => 100 + i

/-- Concrete operation that fails retryably on every invocation. -/
def c6g : Nat → OpOutcome Nat Nat := fun i => OpOutcome.fail (c6es i)

theorem C6_retry_wrapper_witness :
    (with_retries 3 (5 : ℚ) 2 c6op).invocations = 3 ∧
    (with_retries 3 (5 : ℚ) 2 c6op).result = RetryResult.ok 42 ∧
    (with_retries 3 (5 : ℚ) 2 c6op).sleeps = [5, 5 * 2] ∧
    (with_retries ((3 : Nat) : Int) (5 : ℚ) 2 c6g).result
      = RetryResult.raised (c6es 2) :=
  C6_retry_wrapper c6op c6g 5 2 7 8 42 3 c6es rfl rfl rfl (by decide)
    (fun i _ => rfl)

/-- C9: a wrapped call with non-positive max retries never invokes the
operation and ends in the generic AppError, never in a re-raised
retryable failure. -/
theorem C9_nonpositive_retries {α ε : Type} (maxRetries : Int) (d b : ℚ)
    (op : Nat → OpOutcome α ε) (h : maxRetries ≤ 0) :
    (with_retries maxRetries d b op).invocations = 0 ∧
    (with_retries maxRetries d b op).result
      = RetryResult.appError
          ("All " ++ toString maxRetries ++ " attempts failed") := by
  have ht : maxRetries.toNat = 0 := Int.toNat_of_nonpos h
  constructor
  · simp [with_retries, ht, withRetriesGo]
  · simp [with_retries, ht, withRetriesGo]

theorem C9_nonpositive_retries_witness :
    (with_retries (-2) (5 : ℚ) 2 c6op).invocations = 0 ∧
    (with_retries (-2) (5 : ℚ) 2 c6op).result
      = RetryResult.appError
          ("All " ++ toString (-2 : Int) ++ " attempts failed") :=
  C9_nonpositive_retries (-2) 5 2 c6op (by decide)

/-! ## SFTP client connection lifecycle (src/api/src/clients/sftp_client.py)

The client keeps two attributes, self dot ssh client and self dot sftp
client.  Each await in the python code is a suspension point of the event
loop; the embedding records the attribute state at every such point in an
observed list, since other tasks can run and read the attributes there. -/

/-- Raw library exception kinds distinguished by the except clauses of
sftp_client.py: paramiko SSHException, AuthenticationException,
NoValidConnectionsError, OSError, AttributeError, RuntimeError. -/
inductive ExcKind
  | sshExc
  | authExc
  | noValidConn
  | osErr
  | attrErr
  | runtimeErr
  deriving DecidableEq, Repr

/-- Application error hierarchy of sftp_client.py lines 25-38: SFTPError
and its three subclasses. -/
inductive SFTPErrKind
  | base
  | connection
  | authentication
  | file
  deriving DecidableEq, Repr

/-- An exception propagating out of a client method: an application SFTP
error with its message, or a raw library exception no handler caught. -/
inductive PyErr
  | sftpe (k : SFTPErrKind) (msg : String)
  | exc (k : ExcKind)
  deriving DecidableEq, Repr

/-- A live SSH client handle together with its transport.  serverKeyFp
is the lowercase md5 hex fingerprint of the host key the server
presented; active mirrors transport dot is_active; closeErr is the
behaviour of close on this handle (none means it closes cleanly). -/
structure SSHHandle where
  serverKeyFp : String
  active : Bool
  closeErr : Option ExcKind
  deriving DecidableEq, Repr

/-- A live SFTP file-session handle; closeErr is the behaviour of its
close call. -/
structure SFTPHandle where
  closeErr : Option ExcKind
  deriving DecidableEq, Repr

/-- The two connection attributes of an SFTPClient instance. -/
structure ClientState where
  ssh : Option SSHHandle
  sftp : Option SFTPHandle
  deriving DecidableEq, Repr

/-- The fully closed state: both attributes null. -/
def closedState : ClientState := { ssh := none, sftp := none }

/-- Handle is fully connected: both attributes set and the transport
reports itself active. -/
def fullyConnected (st : ClientState) : Bool :=
  match st.ssh, st.sftp with
  | some g, some _ => g.active
  | _, _ => false

/-- Handle is fully closed: both attributes null. -/
def fullyClosed (st : ClientState) : Bool :=
  st.ssh.isNone && st.sftp.isNone

/-- Embedding of _normalize_md5_fingerprint (lines 202-205): strip
whitespace from both ends, lowercase, drop the colon separators. -/
def normalizeMd5Fingerprint (fp : String) : String :=
  let stripped :=
    ((fp.data.dropWhile Char.isWhitespace).reverse.dropWhile
      Char.isWhitespace).reverse
  ⟨(stripped.map Char.toLower).filter (fun c => c ≠ ':')⟩

/-- Embedding of _fingerprint_matches (lines 207-212): the md5 hex form
of the presented key compared against the normalized expected form. -/
def fingerprintMatches (expected : String) (keyFp : String) : Bool :=
  keyFp == normalizeMd5Fingerprint expected

/-- Result of one call of _close: the new attribute state, the raw
exception it propagates if an underlying close raised, and the attribute
states observable at its suspension points. -/
structure CloseOut where
  state : ClientState
  err : Option ExcKind
  observed : List ClientState
  deriving DecidableEq, Repr

/-- Embedding of _close (lines 214-226).  Each handle close runs inside
try-finally, so the attribute is nulled even when the close raises, but a
raise from the file-session close propagates before the transport close
is ever attempted. -/
def _close (st : ClientState) : CloseOut :=
  let part1 : ClientState × Option ExcKind × List ClientState :=
    match st.sftp with
    | some h => ({ st with sftp := none }, h.closeErr, [st])
    | none => (st, none, [])
  match part1 with
  | (st1, some k, o1) => { state := st1, err := some k, observed := o1 }
  | (st1, none, o1) =>
    match st1.ssh with
    | some g =>
      { state := { st1 with ssh := none }, err := g.closeErr,
        observed := o1 ++ [st1] }
    | none => { state := st1, err := none, observed := o1 }

/-- Configuration of the client relevant to connecting: the optional
pinned host-key fingerprint and whether a private key file is used. -/
structure ClientConfig where
  hostKeyFingerprint : Option String
  usesPrivateKey : Bool
  deriving DecidableEq, Repr

/-- Outcome of open_sftp on the new transport. -/
inductive OpenSftpRes
  | ok (h : SFTPHandle)
  | exc (k : ExcKind)
  deriving DecidableEq, Repr

/-- Environment of one _connect call: the outcomes of every external
operation it performs.  keyPreKnown models whether the presented server
key is already among the client host keys, in which case paramiko never
consults the missing-host-key policy (with a fresh SSHClient per connect,
as in this code, it is always false). -/
structure ConnectEnv where
  pkeyInvalid : Bool
  transportFail : Option ExcKind
  presented : SSHHandle
  keyPreKnown : Bool
  authOk : Bool
  openSftp : OpenSftpRes
  deriving DecidableEq, Repr

/-- Outcome of _create_ssh_client_sync (lines 156-200). -/
inductive CreateRes
  | ok (h : SSHHandle)
  | exc (k : ExcKind)
  | invalidKey
  deriving DecidableEq, Repr

/-- Embedding of _create_ssh_client_sync: loading an invalid private key
raises SFTPAuthenticationError before connecting; then client dot connect
performs transport negotiation, host key verification through the
configured missing-host-key policy (the fingerprint policy raises
SSHException on mismatch; AutoAddPolicy accepts anything), and finally
authentication. -/
def _create_ssh_client_sync (cfg : ClientConfig) (env : ConnectEnv) :
    CreateRes :=
  if cfg.usesPrivateKey && env.pkeyInvalid then CreateRes.invalidKey
  else
    match env.transportFail with
    | some k => CreateRes.exc k
    | none =>
      let policyOk :=
        match cfg.hostKeyFingerprint with
        | some fp =>
          env.keyPreKnown
            || fingerprintMatches fp env.presented.serverKeyFp
        | none => true
      if !policyOk then CreateRes.exc ExcKind.sshExc
      else if !env.authOk then CreateRes.exc ExcKind.authExc
      else CreateRes.ok { env.presented with active := true }

/-- Result of one call of _connect: final attribute state, the
propagated exception if any, and the attribute states observable at its
suspension points. -/
structure ConnectOut where
  state : ClientState
  err : Option PyErr
  observed : List ClientState
  deriving DecidableEq, Repr

/-- The outer except clauses of _connect (lines 140-154): each catches a
family of raw exceptions, closes the handle and raises a typed SFTP
error; OSError and AttributeError have no outer handler and propagate
raw without teardown.  A raise from _close inside a handler replaces the
typed raise and propagates raw. -/
def handleOuter (st : ClientState) (k : ExcKind) (obs : List ClientState) :
    ConnectOut :=
  let close := fun (kind : SFTPErrKind) (msg : String) =>
    let c := _close st
    match c.err with
    | some k2 =>
      { state := c.state, err := some (PyErr.exc k2),
        observed := obs ++ c.observed }
    | none =>
      { state := c.state, err := some (PyErr.sftpe kind msg),
        observed := obs ++ c.observed }
  match k with
  | ExcKind.authExc => close SFTPErrKind.authentication "Authentication failed"
  | ExcKind.sshExc => close SFTPErrKind.connection "Connection failed"
  | ExcKind.noValidConn => close SFTPErrKind.connection "Connection failed"
  | ExcKind.runtimeErr => close SFTPErrKind.base "Unexpected error"
  | ExcKind.osErr => { state := st, err := some (PyErr.exc k), observed := obs }
  | ExcKind.attrErr => { state := st, err := some (PyErr.exc k), observed := obs }

/-- Opening the SFTP sub-session (line 138): an await, so the state with
the transport assigned but the file session not yet opened is observable
while it runs; on failure the raw exception is dispatched to the outer
handlers. -/
def openSftpPart (env : ConnectEnv) (st1 : ClientState)
    (obs : List ClientState) : ConnectOut :=
  match env.openSftp with
  | OpenSftpRes.ok fh =>
    { state := { st1 with sftp := some fh }, err := none,
      observed := obs ++ [st1] }
  | OpenSftpRes.exc k => handleOuter st1 k (obs ++ [st1])

/-- Body of _connect after the reuse check (lines 115-154).  The created
client always carries a transport holding the presented server key, so
the branch raising for a missing transport is unreachable.  On a
fingerprint mismatch the code closes the handle and raises
SFTPConnectionError; a raise from that close is caught by the inner
except clause when of a kind in its tuple (close again, re-raise to the
outer handlers) and otherwise reaches the outer handlers directly. -/
def connectBody (cfg : ClientConfig) (env : ConnectEnv) (st : ClientState) :
    ConnectOut :=
  match _create_ssh_client_sync cfg env with
  | CreateRes.invalidKey =>
    { state := st,
      err := some (PyErr.sftpe SFTPErrKind.authentication
        "Invalid private key file"),
      observed := [st] }
  | CreateRes.exc k => handleOuter st k [st]
  | CreateRes.ok h =>
    let st1 : ClientState := { st with ssh := some h }
    match cfg.hostKeyFingerprint with
    | some fp =>
      if fingerprintMatches fp h.serverKeyFp then openSftpPart env st1 [st]
      else
        let c := _close st1
        match c.err with
        | none =>
          { state := c.state,
            err := some (PyErr.sftpe SFTPErrKind.connection
              "Server host key fingerprint mismatch"),
            observed := [st] ++ c.observed }
        | some k =>
          if k = ExcKind.sshExc ∨ k = ExcKind.attrErr ∨ k = ExcKind.osErr then
            let c2 := _close c.state
            match c2.err with
            | none => handleOuter c2.state k ([st] ++ c.observed ++ c2.observed)
            | some k2 =>
              handleOuter c2.state k2 ([st] ++ c.observed ++ c2.observed)
          else handleOuter c.state k ([st] ++ c.observed)
    | none => openSftpPart env st1 [st]

/-- Embedding of _connect (lines 94-154).  If both attributes are set
and the transport reports itself active the call returns at once;
otherwise it runs the connect body. -/
def _connect (cfg : ClientConfig) (env : ConnectEnv) (st : ClientState) :
    ConnectOut :=
  match st.sftp, st.ssh with
  | some _, some g =>
    if g.active then { state := st, err := none, observed := [] }
    else connectBody cfg env st
  | _, _ => connectBody cfg env st

/-- Closing a handle whose underlying close operations do not raise
yields the fully closed state and no exception. -/
theorem close_clean (st : ClientState)
    (h1 : ∀ g, st.ssh = some g → g.closeErr = none)
    (h2 : ∀ fh, st.sftp = some fh → fh.closeErr = none) :
    (_close st).state = closedState ∧ (_close st).err = none := by
  rcases st with ⟨ssh, sftp⟩
  cases sftp with
  | none =>
    cases ssh with
    | none => exact ⟨rfl, rfl⟩
    | some g =>
      have hg : g.closeErr = none := h1 g rfl
      constructor <;> simp [_close, hg, closedState]
  | some fh =>
    have hfh : fh.closeErr = none := h2 fh rfl
    cases ssh with
    | none => constructor <;> simp [_close, hfh, closedState]
    | some g =>
      have hg : g.closeErr = none := h1 g rfl
      constructor <;> simp [_close, hg, hfh, closedState]

/-- Outer exception handling from a state whose handles close cleanly:
it always propagates some failure, leaves the state untouched for the
unhandled kinds and fully closed for the handled ones. -/
theorem handleOuter_spec (st : ClientState) (k : ExcKind)
    (obs : List ClientState)
    (h1 : ∀ g, st.ssh = some g → g.closeErr = none)
    (h2 : ∀ fh, st.sftp = some fh → fh.closeErr = none) :
    (handleOuter st k obs).err ≠ none ∧
    (if k = ExcKind.osErr ∨ k = ExcKind.attrErr
      then (handleOuter st k obs).state = st
      else (handleOuter st k obs).state = closedState) := by
  have hcl := close_clean st h1 h2
  cases k <;> constructor <;>
    simp [handleOuter, hcl.1, hcl.2]

/-- Opening the sub-session from a half-way state with a live active
transport and cleanly closing handles either completes the connection or
fails with the handle fully torn down, provided the failure kind is one
the outer handlers cover. -/
theorem openSftpPart_spec (env : ConnectEnv) (g : SSHHandle)
    (sf : Option SFTPHandle) (obs : List ClientState)
    (hact : g.active = true) (hg : g.closeErr = none)
    (hsf : ∀ fh, sf = some fh → fh.closeErr = none)
    (hopen : ∀ k, env.openSftp = OpenSftpRes.exc k →
      k ≠ ExcKind.osErr ∧ k ≠ ExcKind.attrErr) :
    ((openSftpPart env ⟨some g, sf⟩ obs).err = none ∧
        fullyConnected (openSftpPart env ⟨some g, sf⟩ obs).state = true) ∨
      ((openSftpPart env ⟨some g, sf⟩ obs).err ≠ none ∧
        fullyClosed (openSftpPart env ⟨some g, sf⟩ obs).state = true) := by
  cases hos : env.openSftp with
  | ok fh =>
    left
    constructor
    · simp [openSftpPart, hos]
    · simp [openSftpPart, hos, fullyConnected, hact]
  | exc k =>
    right
    have hk := hopen k hos
    have hsp := handleOuter_spec ⟨some g, sf⟩ k (obs ++ [⟨some g, sf⟩])
      (by intro g2 hg2; cases hg2; exact hg) hsf
    have hcond : ¬(k = ExcKind.osErr ∨ k = ExcKind.attrErr) := by
      rcases hk with ⟨hk1, hk2⟩
      rintro (h | h) <;> [exact hk1 h; exact hk2 h]
    rw [if_neg hcond] at hsp
    constructor
    · simpa [openSftpPart, hos] using hsp.1
    · simp [openSftpPart, hos, hsp.2, closedState, fullyClosed]

/-- The synchronous client creation has exactly three result shapes:
the invalid-key raise, a raw exception, or a fresh handle whose
transport is the presented one, activated. -/
theorem create_cases (cfg : ClientConfig) (env : ConnectEnv) :
    _create_ssh_client_sync cfg env = CreateRes.invalidKey ∨
    (∃ k, _create_ssh_client_sync cfg env = CreateRes.exc k) ∨
    _create_ssh_client_sync cfg env
      = CreateRes.ok { env.presented with active := true } := by
  unfold _create_ssh_client_sync
  by_cases h1 : (cfg.usesPrivateKey && env.pkeyInvalid) = true
  · left
    rw [if_pos h1]
  · rw [if_neg h1]
    cases env.transportFail with
    | some k => right; left; exact ⟨k, rfl⟩
    | none =>
      right
      cases hb : (match cfg.hostKeyFingerprint with
          | some fp =>
            env.keyPreKnown || fingerprintMatches fp env.presented.serverKeyFp
          | none => true) with
      | false => left; exact ⟨ExcKind.sshExc, by simp [hb]⟩
      | true =>
        cases ha : env.authOk with
        | false => left; exact ⟨ExcKind.authExc, by simp [hb, ha]⟩
        | true => right; simp [hb, ha]

/-- If client creation raises, the connect body from the fully closed
state propagates a failure and ends fully closed. -/
theorem connectBody_exc_spec (cfg : ClientConfig) (env : ConnectEnv)
    (k : ExcKind)
    (hcr : _create_ssh_client_sync cfg env = CreateRes.exc k) :
    (connectBody cfg env closedState).err ≠ none ∧
    fullyClosed (connectBody cfg env closedState).state = true := by
  have hvs : ∀ g : SSHHandle, closedState.ssh = some g → g.closeErr = none :=
    fun g hg => nomatch hg
  have hvf : ∀ fh : SFTPHandle, closedState.sftp = some fh →
      fh.closeErr = none := fun fh hf => nomatch hf
  have hsp := handleOuter_spec closedState k [closedState] hvs hvf
  have hst : (handleOuter closedState k [closedState]).state = closedState := by
    by_cases hc : (k = ExcKind.osErr ∨ k = ExcKind.attrErr)
    · rw [if_pos hc] at hsp; exact hsp.2
    · rw [if_neg hc] at hsp; exact hsp.2
  constructor
  · simpa [connectBody, hcr] using hsp.1
  · have hfc : fullyClosed (handleOuter closedState k [closedState]).state
        = true := by rw [hst]; rfl
    simpa [connectBody, hcr] using hfc

/-- If client creation succeeds with an active cleanly closing handle
and the sub-session failure kinds are covered by the outer handlers, the
connect body from the fully closed state either completes the connection
or fails fully closed. -/
theorem connectBody_ok_spec (cfg : ClientConfig) (env : ConnectEnv)
    (h : SSHHandle)
    (hcr : _create_ssh_client_sync cfg env = CreateRes.ok h)
    (hact : h.active = true) (hg : h.closeErr = none)
    (hopen : ∀ k, env.openSftp = OpenSftpRes.exc k →
      k ≠ ExcKind.osErr ∧ k ≠ ExcKind.attrErr) :
    ((connectBody cfg env closedState).err = none ∧
        fullyConnected (connectBody cfg env closedState).state = true) ∨
      ((connectBody cfg env closedState).err ≠ none ∧
        fullyClosed (connectBody cfg env closedState).state = true) := by
  have hnone : ∀ fh : SFTPHandle, (none : Option SFTPHandle) = some fh →
      fh.closeErr = none := fun fh hf => nomatch hf
  have hosp := openSftpPart_spec env h none [closedState] hact hg hnone hopen
  cases hkf : cfg.hostKeyFingerprint with
  | none =>
    rcases hosp with ⟨he, hs⟩ | ⟨he, hs⟩
    · left
      constructor <;> simpa [connectBody, hcr, hkf, closedState] using ‹_›
    · right
      constructor <;> simpa [connectBody, hcr, hkf, closedState] using ‹_›
  | some fp =>
    by_cases hm : fingerprintMatches fp h.serverKeyFp = true
    · rcases hosp with ⟨he, hs⟩ | ⟨he, hs⟩
      · left
        constructor <;> simpa [connectBody, hcr, hkf, hm, closedState] using ‹_›
      · right
        constructor <;> simpa [connectBody, hcr, hkf, hm, closedState] using ‹_›
    · have hm' : fingerprintMatches fp h.serverKeyFp = false := by
        simpa using hm
      have hcl := close_clean ⟨some h, none⟩
        (fun g hg2 => by cases hg2; exact hg) hnone
      right
      constructor
      · simp [connectBody, hcr, hkf, hm', hcl.2, closedState]
      · simp [connectBody, hcr, hkf, hm', hcl.1, hcl.2, closedState, fullyClosed]

/-- C8 (amended): at the call boundaries the invariant holds — starting
from a fully closed handle, when the presented transport and the handles
being closed close cleanly and the sub-session failure kinds are covered
by the outer handlers, connect ends fully connected on success and fully
closed on failure, and close ends fully closed without raising.  The
original claim extended the invariant to every suspension point inside
connect, which fails at the open-sub-session await. -/
theorem C8_boundary_invariant_amended (cfg : ClientConfig) (env : ConnectEnv)
    (st : ClientState)
    (hclean : env.presented.closeErr = none)
    (hopen : ∀ k, env.openSftp = OpenSftpRes.exc k →
      k ≠ ExcKind.osErr ∧ k ≠ ExcKind.attrErr)
    (hsshc : ∀ g, st.ssh = some g → g.closeErr = none)
    (hsftpc : ∀ fh, st.sftp = some fh → fh.closeErr = none) :
    (((_connect cfg env closedState).err = none ∧
        fullyConnected (_connect cfg env closedState).state = true) ∨
      ((_connect cfg env closedState).err ≠ none ∧
        fullyClosed (_connect cfg env closedState).state = true)) ∧
    fullyClosed (_close st).state = true ∧ (_close st).err = none := by
  have hclose := close_clean st hsshc hsftpc
  refine ⟨?_, by rw [hclose.1]; rfl, hclose.2⟩
  have hcb : _connect cfg env closedState = connectBody cfg env closedState :=
    rfl
  rw [hcb]
  rcases create_cases cfg env with hcr | ⟨k, hcr⟩ | hcr
  · right
    constructor
    · simp [connectBody, hcr]
    · simp [connectBody, hcr, fullyClosed, closedState]
  · exact Or.inr (connectBody_exc_spec cfg env k hcr)
  · exact connectBody_ok_spec cfg env _ hcr rfl hclean hopen

/-- Configuration with no pinned fingerprint, used by the connect
scenario witnesses. -/
def c8cfg : ClientConfig := { hostKeyFingerprint := none, usesPrivateKey := false }

/-- A cleanly closing active transport presenting key ccdd. -/
def okSshHandle : SSHHandle :=
  { serverKeyFp := "ccdd", active := true, closeErr := none }

/-- Environment in which every external operation of connect succeeds. -/
def envAllOk : ConnectEnv :=
  { pkeyInvalid := false, transportFail := none, presented := okSshHandle,
    keyPreKnown := false, authOk := true,
    openSftp := OpenSftpRes.ok { closeErr := none } }

theorem C8_boundary_invariant_amended_witness :
    (((_connect c8cfg envAllOk closedState).err = none ∧
        fullyConnected (_connect c8cfg envAllOk closedState).state = true) ∨
      ((_connect c8cfg envAllOk closedState).err ≠ none ∧
        fullyClosed (_connect c8cfg envAllOk closedState).state = true)) ∧
    fullyClosed (_close closedState).state = true ∧
      (_close closedState).err = none :=
  C8_boundary_invariant_amended c8cfg envAllOk closedState rfl
    (fun _ hk => nomatch hk) (fun _ hg => nomatch hg) (fun _ hf => nomatch hf)

/-- C8 (counterexample): a fully successful connect from the fully
closed state yields control while opening the file sub-session, and at
that suspension point the handle state is observably half-open — the
transport attribute is set and active while the file-session attribute
is null, so the state is neither fully connected nor fully closed. -/
theorem C8_counterexample :
    (_connect c8cfg envAllOk closedState).err = none ∧
    ClientState.mk (some okSshHandle) none
        ∈ (_connect c8cfg envAllOk closedState).observed ∧
    fullyConnected (ClientState.mk (some okSshHandle) none) = false ∧
    fullyClosed (ClientState.mk (some okSshHandle) none) = false := by
  decide

/-- Configuration pinning fingerprint AA:BB, which normalizes to aabb
and does not match the presented key ccdd. -/
def c2cfg : ClientConfig :=
  { hostKeyFingerprint := some "AA:BB", usesPrivateKey := false }

/-- Environment presenting a key whose fingerprint does not match the
pinned one, everything else succeeding. -/
def c2envMismatch : ConnectEnv := envAllOk

/-- Environment in which transport negotiation itself fails. -/
def c2envTransportFail : ConnectEnv :=
  { envAllOk with transportFail := some ExcKind.noValidConn }

/-- C2 (counterexample): with the pinned fingerprint AA:BB and presented
key ccdd, connect fails with SFTPConnectionError — exactly the same
failure kind (and even the same message) as a pure transport negotiation
failure, so the fingerprint-mismatch failure is not a kind distinct from
the connection failure; no TrustError kind exists in the code. -/
theorem C2_counterexample :
    (_connect c2cfg c2envMismatch closedState).err
      = some (PyErr.sftpe SFTPErrKind.connection "Connection failed") ∧
    (_connect c2cfg c2envTransportFail closedState).err
      = some (PyErr.sftpe SFTPErrKind.connection "Connection failed") := by
  decide

/-- C2 (amended): when a fingerprint is pinned and the presented key
does not match it, connect from the fully closed state fails with
SFTPConnectionError — the connection-failure kind, there being no
distinct trust-failure kind — and afterwards both handles are null. -/
theorem C2_trust_mismatch_amended (cfg : ClientConfig) (env : ConnectEnv)
    (fp : String)
    (hfp : cfg.hostKeyFingerprint = some fp)
    (hmm : fingerprintMatches fp env.presented.serverKeyFp = false)
    (htf : env.transportFail = none)
    (hpk : (cfg.usesPrivateKey && env.pkeyInvalid) = false)
    (hclean : env.presented.closeErr = none)
    (hka : env.keyPreKnown = false ∨ env.authOk = true) :
    (∃ msg, (_connect cfg env closedState).err
      = some (PyErr.sftpe SFTPErrKind.connection msg)) ∧
    (_connect cfg env closedState).state = closedState := by
  have hcb : _connect cfg env closedState = connectBody cfg env closedState :=
    rfl
  rw [hcb]
  cases hkp : env.keyPreKnown with
  | false =>
    have hcr : _create_ssh_client_sync cfg env = CreateRes.exc ExcKind.sshExc := by
      unfold _create_ssh_client_sync
      rw [if_neg (by simp [hpk]), htf]
      simp [hfp, hkp, hmm]
    refine ⟨⟨"Connection failed", ?_⟩, ?_⟩ <;>
      simp [connectBody, hcr, handleOuter, _close, closedState]
  | true =>
    have hauth : env.authOk = true := by
      rcases hka with h | h
      · rw [hkp] at h; cases h
      · exact h
    have hcr : _create_ssh_client_sync cfg env
        = CreateRes.ok { env.presented with active := true } := by
      unfold _create_ssh_client_sync
      rw [if_neg (by simp [hpk]), htf]
      simp [hfp, hkp, hauth]
    refine ⟨⟨"Server host key fingerprint mismatch", ?_⟩, ?_⟩ <;>
      simp [connectBody, hcr, hfp, hmm, _close, hclean, closedState]

theorem C2_trust_mismatch_amended_witness :
    (∃ msg, (_connect c2cfg c2envMismatch closedState).err
      = some (PyErr.sftpe SFTPErrKind.connection msg)) ∧
    (_connect c2cfg c2envMismatch closedState).state = closedState :=
  C2_trust_mismatch_amended c2cfg c2envMismatch "AA:BB" rfl (by decide)
    rfl rfl rfl (Or.inl rfl)

/-- A transport handle whose close raises no exception, used in the
close scenarios. -/
def c10ssh : SSHHandle := { serverKeyFp := "eeff", active := true, closeErr := none }

/-- A file-session handle whose close raises SSHException. -/
def c10badSftp : SFTPHandle := { closeErr := some ExcKind.sshExc }

/-- A fully connected state whose file-session close raises. -/
def c10state : ClientState := { ssh := some c10ssh, sftp := some c10badSftp }

/-- C10 (counterexample): when the file-session close raises, close
propagates the exception and leaves the transport attribute set — the
handle is not fully closed afterwards, refuting the claim that both
handles are null however the underlying closes behave. -/
theorem C10_counterexample :
    (_close c10state).err = some ExcKind.sshExc ∧
    (_close c10state).state.ssh = some c10ssh ∧
    (_close c10state).state.sftp = none := by
  decide

/-- C10 (amended): the file-session attribute is always null after
close; provided the file-session close does not raise, the transport
attribute is null as well — even when the transport close raises, since
each attribute is nulled in a finally block — and the repeated close is
then a no-op that cannot raise. -/
theorem C10_close_amended (st : ClientState)
    (h : ∀ fh, st.sftp = some fh → fh.closeErr = none) :
    (_close st).state.sftp = none ∧
    (_close st).state.ssh = none ∧
    (_close (_close st).state).state = (_close st).state ∧
    (_close (_close st).state).err = none := by
  rcases st with ⟨ssh, sftp⟩
  cases sftp with
  | none => cases ssh <;> simp [_close]
  | some fh =>
    have hfh : fh.closeErr = none := h fh rfl
    cases ssh <;> simp [_close, hfh]

/-- A fully connected state with cleanly closing handles. -/
def c10cleanState : ClientState :=
  { ssh := some c10ssh, sftp := some { closeErr := none } }

theorem C10_close_amended_witness :
    (_close c10cleanState).state.sftp = none ∧
    (_close c10cleanState).state.ssh = none ∧
    (_close (_close c10cleanState).state).state
      = (_close c10cleanState).state ∧
    (_close (_close c10cleanState).state).err = none :=
  C10_close_amended c10cleanState
    (by intro fh hfh; injection hfh with h2; rw [← h2])

/-! ## Atomic file download (sftp_client.py, download_file body,
lines 258-332) -/

/-- Contents of the local directory relevant to one download: the bytes
at the destination path and the bytes in the temporary sibling file
(none = the file does not exist). -/
structure FileSys where
  dest : Option (List Nat)
  temp : Option (List Nat)
  deriving DecidableEq, Repr

/-- Failure kinds download_file can raise towards the retry wrapper and
the manager: the SFTPError family or the asyncio timeout. -/
inductive DlErr
  | sftpe (k : SFTPErrKind) (msg : String)
  | timeout
  deriving DecidableEq, Repr

/-- Outcome of the streaming get of the remote file into the temp
file. -/
inductive FetchRes
  | ok (bytes : List Nat)
  | timeout
  | exc (k : ExcKind)
  deriving DecidableEq, Repr

/-- Outcome of _get_remote_stats: the remote size, or an IOError that
the helper wraps into SFTPFileError. -/
inductive StatRes
  | ok (size : Nat)
  | ioErr
  deriving DecidableEq, Repr

/-- Environment of one call of the undecorated download_file body.  A
connection failure surfaces through the typed contract of _connect as
one of the kinds the body re-raises or wraps. -/
structure DlEnv where
  connectErr : Option DlErr
  makedirsOk : Bool
  stat : StatRes
  fetch : FetchRes
  replaceOk : Bool
  removeOk : Bool
  deriving DecidableEq, Repr

/-- Result of one call of the body: the directory contents afterwards
and the returned value or raised failure. -/
structure DlOut where
  fs : FileSys
  result : Except DlErr Bool
  deriving Repr

/-- The finally block of download_file (lines 324-332): if the temp file
still exists it is removed; a removal failure is logged, not raised. -/
def cleanupTemp (env : DlEnv) (fs : FileSys) : FileSys :=
  match fs.temp with
  | some _ => if env.removeOk then { fs with temp := none } else fs
  | none => fs

/-- Embedding of the download_file body: connect, ensure the directory,
create a sibling temp file, stat the remote, stream into the temp file
under the operation timeout, verify the byte count against the remote
size, atomically rename over the destination; failures are re-raised
when of the SFTP or timeout kinds and wrapped into SFTPError otherwise,
and the temp file is removed in the finally block whenever it still
exists. -/
def download_file_body (env : DlEnv) (fs : FileSys) : DlOut :=
  match env.connectErr with
  | some e => { fs := fs, result := Except.error e }
  | none =>
    if !env.makedirsOk then
      { fs := fs,
        result := Except.error (DlErr.sftpe SFTPErrKind.base
          "Failed to download file") }
    else
      let fs1 : FileSys := { fs with temp := some [] }
      match env.stat with
      | StatRes.ioErr =>
        { fs := cleanupTemp env fs1,
          result := Except.error (DlErr.sftpe SFTPErrKind.file
            "Failed to stat remote file") }
      | StatRes.ok size =>
        match env.fetch with
        | FetchRes.timeout =>
          { fs := cleanupTemp env fs1, result := Except.error DlErr.timeout }
        | FetchRes.exc _ =>
          { fs := cleanupTemp env fs1,
            result := Except.error (DlErr.sftpe SFTPErrKind.base
              "Failed to download file") }
        | FetchRes.ok bytes =>
          let fs2 : FileSys := { fs1 with temp := some bytes }
          if bytes.length ≠ size then
            { fs := cleanupTemp env fs2,
              result := Except.error (DlErr.sftpe SFTPErrKind.file
                ("Size mismatch: expected " ++ toString size ++ ", got "
                  ++ toString bytes.length)) }
          else
            if env.replaceOk then
              { fs := { dest := some bytes, temp := none },
                result := Except.ok true }
            else
              { fs := cleanupTemp env fs2,
                result := Except.error (DlErr.sftpe SFTPErrKind.base
                  "Failed to download file") }

/-- C3: when the streamed byte count differs from the remote-reported
size, the body fails with SFTPFileError, the destination file is exactly
what it was before the call (the temp file is never renamed over it),
and the temp file is deleted whenever its removal succeeds. -/
theorem C3_size_mismatch_integrity (env : DlEnv) (fs : FileSys)
    (size : Nat) (bytes : List Nat)
    (hc : env.connectErr = none) (hm : env.makedirsOk = true)
    (hs : env.stat = StatRes.ok size) (hf : env.fetch = FetchRes.ok bytes)
    (hne : bytes.length ≠ size) :
    (download_file_body env fs).result
      = Except.error (DlErr.sftpe SFTPErrKind.file
          ("Size mismatch: expected " ++ toString size ++ ", got "
            ++ toString bytes.length)) ∧
    (download_file_body env fs).fs.dest = fs.dest ∧
    (env.removeOk = true → (download_file_body env fs).fs.temp = none) := by
  refine ⟨?_, ?_, ?_⟩
  · simp [download_file_body, hc, hm, hs, hf, hne, cleanupTemp]
  · simp [download_file_body, hc, hm, hs, hf, hne, cleanupTemp]
    split <;> rfl
  · intro hr
    simp [download_file_body, hc, hm, hs, hf, hne, cleanupTemp, hr]

/-- Environment for the integrity witness: remote size 4 but only 3
bytes streamed, removal succeeding. -/
def c3env : DlEnv :=
  { connectErr := none, makedirsOk := true, stat := StatRes.ok 4,
    fetch := FetchRes.ok [10, 20, 30], replaceOk := true, removeOk := true }

/-- Directory with an existing two-byte mirror file and no temp file. -/
def c3fs : FileSys := { dest := some [1, 2], temp := none }

theorem C3_size_mismatch_integrity_witness :
    (download_file_body c3env c3fs).result
      = Except.error (DlErr.sftpe SFTPErrKind.file
          ("Size mismatch: expected " ++ toString 4 ++ ", got "
            ++ toString (List.length [10, 20, 30]))) ∧
    (download_file_body c3env c3fs).fs.dest = c3fs.dest ∧
    (c3env.removeOk = true → (download_file_body c3env c3fs).fs.temp = none) :=
  C3_size_mismatch_integrity c3env c3fs 4 [10, 20, 30] rfl rfl rfl rfl
    (by decide)

/-! ## Sync orchestrator (src/api/src/clients/sftp_manager.py,
download_player_stats_db, lines 34-94)

The manager loop calls self dot client dot download_file, which is the
with_retries-wrapped version of the download body: each manager attempt
therefore consumes up to 3 underlying body invocations.  The underlying
invocation outcomes are given globally by a stream att, consumed in
order. -/

/-- Outcome of one invocation of the undecorated download body as seen
by the wrapper: success, or a failure of one of the kinds in the
configured tuple (the SFTPError family and the asyncio timeout) — the
kinds the body raises. -/
inductive AttOutcome
  | ok
  | err (e : DlErr)
  deriving DecidableEq, Repr

/-- The wrapped operation handed to with_retries, reading underlying
invocation outcomes from the global stream starting at index start. -/
def attToOp (att : Nat → AttOutcome) (start : Nat) :
    Nat → OpOutcome Bool DlErr := fun j =>
  match att (start + j) with
  | AttOutcome.ok => OpOutcome.ok true
  | AttOutcome.err e => OpOutcome.fail e

/-- The decorated download_file at sftp_client.py line 258: with_retries
with max retries 3, base delay 5, backoff 2, over the download body. -/
def download_file_wrapped (att : Nat → AttOutcome) (start : Nat) :
    RetryTrace Bool DlErr :=
  with_retries 3 5 2 (attToOp att start)

/-- Environment of one manager call: whether the directory creation
succeeds, and the observations of the shutdown event at each of its
three polling spots per manager attempt (the event is only ever set, so
a real execution is one where these streams are monotone; the theorems
hold for all streams). -/
structure MgrEnv where
  makedirsOk : Bool
  shutTop : Nat → Bool
  shutAfterFail : Nat → Bool
  shutDuringBackoff : Nat → Bool

/-- Result of a manager call: the returned boolean, or an exception
escaping the routine (nothing in its except tuple catches it). -/
inductive MgrResult
  | ok (b : Bool)
  | escaped (msg : String)
  deriving DecidableEq, Repr

/-- Trace of one manager call: its result, the total number of
underlying body invocations, the number of wrapped download_file calls,
the completed backoff waits in seconds, and whether a backoff wait was
interrupted by the shutdown event. -/
structure MgrTrace where
  result : MgrResult
  transfers : Nat
  wrappedCalls : Nat
  backoffs : List Nat
  interrupted : Bool
  deriving Repr

/-- Continuing the loop after an attempt that consumed used underlying
invocations: the rest of the loop runs, prefixed by the optional backoff
just performed. -/
def contTrace (used : Nat) (backoff : Option Nat) (rest : MgrTrace) :
    MgrTrace :=
  { result := rest.result, transfers := used + rest.transfers,
    wrappedCalls := 1 + rest.wrappedCalls,
    backoffs := match backoff with
      | some d => d :: rest.backoffs
      | none => rest.backoffs,
    interrupted := rest.interrupted }

/-- The early-return trace of a manager call that performed used
underlying invocations and, when interrupted during backoff or at the
top of an attempt, returned the boolean b. -/
def stopTrace (b : Bool) (used calls : Nat) (intr : Bool) : MgrTrace :=
  { result := MgrResult.ok b, transfers := used, wrappedCalls := calls,
    backoffs := [], interrupted := intr }

/-- Loop body of download_player_stats_db (lines 51-94).  r is the
number of loop iterations left, a the 0-based python attempt index, c
the number of underlying invocations consumed so far.  At the top of
each attempt the shutdown event is polled; a caught failure triggers a
backoff of min 30 (5 * (a+1)) seconds when attempts remain and the
event is not set, and that wait returns early with result false when
the event fires during it.  Only the AppError branch of the wrapper
(impossible with its fixed 3 attempts) would escape the except tuple. -/
def mgrGo (att : Nat → AttOutcome) (env : MgrEnv) :
    Nat → Nat → Nat → MgrTrace
  | 0, _, _ => stopTrace false 0 0 false
  | r + 1, a, c =>
    if env.shutTop a then stopTrace false 0 0 false
    else
      let w := download_file_wrapped att c
      match w.result with
      | RetryResult.ok true => stopTrace true w.invocations 1 false
      | RetryResult.ok false =>
        contTrace w.invocations none (mgrGo att env r (a + 1) (c + w.invocations))
      | RetryResult.appError m =>
        { result := MgrResult.escaped m, transfers := w.invocations,
          wrappedCalls := 1, backoffs := [], interrupted := false }
      | RetryResult.raised _ =>
        match r, env.shutAfterFail a, env.shutDuringBackoff a with
        | 0, _, _ =>
          contTrace w.invocations none (mgrGo att env 0 (a + 1) (c + w.invocations))
        | r' + 1, true, _ =>
          contTrace w.invocations none
            (mgrGo att env (r' + 1) (a + 1) (c + w.invocations))
        | _ + 1, false, true => stopTrace false w.invocations 1 true
        | r' + 1, false, false =>
          contTrace w.invocations (some (min 30 (5 * (a + 1))))
            (mgrGo att env (r' + 1) (a + 1) (c + w.invocations))
      | RetryResult.propagated _ =>
        match r, env.shutAfterFail a, env.shutDuringBackoff a with
        | 0, _, _ =>
          contTrace w.invocations none (mgrGo att env 0 (a + 1) (c + w.invocations))
        | r' + 1, true, _ =>
          contTrace w.invocations none
            (mgrGo att env (r' + 1) (a + 1) (c + w.invocations))
        | _ + 1, false, true => stopTrace false w.invocations 1 true
        | r' + 1, false, false =>
          contTrace w.invocations (some (min 30 (5 * (a + 1))))
            (mgrGo att env (r' + 1) (a + 1) (c + w.invocations))

/-- Embedding of download_player_stats_db: ensure the local directory
(an OSError there escapes the routine), then run the attempt loop. -/
def download_player_stats_db (att : Nat → AttOutcome) (env : MgrEnv)
    (maxRetries : Nat) : MgrTrace :=
  if !env.makedirsOk then
    { result := MgrResult.escaped "OSError from makedirs",
      transfers := 0, wrappedCalls := 0, backoffs := [],
      interrupted := false }
  else mgrGo att env maxRetries 0 0

/-- The retry loop never invokes the operation more often than its
maximum attempt count. -/
theorem withRetriesGo_invocations_le {α ε : Type} (op : Nat → OpOutcome α ε)
    (b : ℚ) (m : String) :
    ∀ (fuel attempt : Nat) (cd : ℚ) (last : Option ε),
      (withRetriesGo op b m fuel attempt cd last).invocations ≤ fuel := by
  intro fuel
  induction fuel with
  | zero => intro attempt cd last; simp [withRetriesGo]
  | succ f ih =>
    intro attempt cd last
    cases hop : op attempt with
    | ok a => rw [withRetriesGo, hop]; exact Nat.le_add_left 1 f
    | failOther e => rw [withRetriesGo, hop]; exact Nat.le_add_left 1 f
    | fail e =>
      cases f with
      | zero => rw [withRetriesGo, hop]
      | succ f' =>
        rw [withRetriesGo, hop]
        have h := ih (attempt + 1) (cd * b) (some e)
        simp only
        omega

/-- Each manager loop iteration consumes at most the wrapper attempt
count of underlying invocations. -/
theorem mgrGo_transfers_le (att : Nat → AttOutcome) (env : MgrEnv) :
    ∀ (r a c : Nat), (mgrGo att env r a c).transfers ≤ 3 * r := by
  intro r
  induction r with
  | zero => intro a c; simp [mgrGo, stopTrace]
  | succ r' ih =>
    intro a c
    have hw : (download_file_wrapped att c).invocations ≤ 3 :=
      withRetriesGo_invocations_le _ _ _ 3 0 5 none
    by_cases hs : env.shutTop a = true
    · rw [mgrGo, if_pos hs]
      simp [stopTrace]
    · have hs' : env.shutTop a = false := by simpa using hs
      rw [mgrGo, if_neg (by simp [hs'])]
      cases hres : (download_file_wrapped att c).result with
      | ok bb =>
        cases bb
        · have h := ih (a + 1) (c + (download_file_wrapped att c).invocations)
          simp only [hres, contTrace]
          omega
        · simp only [hres, stopTrace]
          omega
      | appError m => simp only [hres]; omega
      | raised e =>
        simp only [hres]
        cases r' with
        | zero =>
          have h := ih (a + 1) (c + (download_file_wrapped att c).invocations)
          simp only [contTrace]
          omega
        | succ r'' =>
          have h := ih (a + 1) (c + (download_file_wrapped att c).invocations)
          cases hsa : env.shutAfterFail a with
          | true => simp only [hsa, contTrace]; omega
          | false =>
            cases hsb : env.shutDuringBackoff a with
            | true => simp only [hsa, hsb, stopTrace]; omega
            | false => simp only [hsa, hsb, contTrace]; omega
      | propagated e =>
        simp only [hres]
        cases r' with
        | zero =>
          have h := ih (a + 1) (c + (download_file_wrapped att c).invocations)
          simp only [contTrace]
          omega
        | succ r'' =>
          have h := ih (a + 1) (c + (download_file_wrapped att c).invocations)
          cases hsa : env.shutAfterFail a with
          | true => simp only [hsa, contTrace]; omega
          | false =>
            cases hsb : env.shutDuringBackoff a with
            | true => simp only [hsa, hsb, stopTrace]; omega
            | false => simp only [hsa, hsb, contTrace]; omega

/-- Underlying stream in which every body invocation fails with the
operation timeout. -/
def allFailAtt : Nat → AttOutcome := fun _ => AttOutcome.err DlErr.timeout

/-- Environment in which the directory creation succeeds and the
shutdown event never fires. -/
def quietEnv : MgrEnv :=
  { makedirsOk := true, shutTop := fun _ => false,
    shutAfterFail := fun _ => false, shutDuringBackoff := fun _ => false }

/-- C1 (counterexample): one manager call with the default 3 attempts,
no shutdown, and every underlying invocation failing retryably performs
9 underlying transfer invocations, not at most 3 — each of the 3 manager
attempts runs the wrapped download_file, which itself retries 3 times. -/
theorem C1_counterexample :
    (download_player_stats_db allFailAtt quietEnv 3).transfers = 9 ∧
    ¬ (download_player_stats_db allFailAtt quietEnv 3).transfers ≤ 3 := by
  decide

/-- C1 (amended): the orchestrator loop retries the already-wrapped
download_file, so the two retry policies nest and compose
multiplicatively: one manager call with n attempts invokes the
underlying transfer at most 3 * n times (9 with the default 3), and
this bound is attained (see the counterexample). -/
theorem C1_nested_retries_amended (att : Nat → AttOutcome) (env : MgrEnv)
    (maxRetries : Nat) :
    (download_player_stats_db att env maxRetries).transfers
      ≤ 3 * maxRetries := by
  unfold download_player_stats_db
  split
  · simp
  · exact mgrGo_transfers_le att env maxRetries 0 0

/-- With at least one attempt, the retry loop never ends in the generic
AppError branch. -/
theorem withRetriesGo_ne_appError {α ε : Type} (op : Nat → OpOutcome α ε)
    (b : ℚ) (m : String) :
    ∀ (fuel attempt : Nat) (cd : ℚ) (last : Option ε), 0 < fuel →
      ∀ msg, (withRetriesGo op b m fuel attempt cd last).result
        ≠ RetryResult.appError msg := by
  intro fuel
  induction fuel with
  | zero => intro attempt cd last h; exact absurd h (by omega)
  | succ f ih =>
    intro attempt cd last _ msg
    cases hop : op attempt with
    | ok a => rw [withRetriesGo, hop]; simp
    | failOther e => rw [withRetriesGo, hop]; simp
    | fail e =>
      cases f with
      | zero => rw [withRetriesGo, hop]; simp
      | succ f' =>
        rw [withRetriesGo, hop]
        have h := ih (attempt + 1) (cd * b) (some e) (by omega) msg
        simpa using h

/-- The manager loop always produces a boolean: every branch of each
iteration either returns a boolean or recurses, and the wrapper under it
cannot produce the AppError that would escape the except tuple. -/
theorem mgrGo_result_ok (att : Nat → AttOutcome) (env : MgrEnv) :
    ∀ (r a c : Nat), ∃ bb, (mgrGo att env r a c).result = MgrResult.ok bb := by
  intro r
  induction r with
  | zero => intro a c; exact ⟨false, rfl⟩
  | succ r' ih =>
    intro a c
    by_cases hs : env.shutTop a = true
    · rw [mgrGo, if_pos hs]
      exact ⟨false, rfl⟩
    · have hs' : env.shutTop a = false := by simpa using hs
      rw [mgrGo, if_neg (by simp [hs'])]
      cases hres : (download_file_wrapped att c).result with
      | ok bb =>
        cases bb
        · have h := ih (a + 1) (c + (download_file_wrapped att c).invocations)
          simpa only [hres, contTrace] using h
        · exact ⟨true, by simp only [hres, stopTrace]⟩
      | appError m =>
        exact absurd hres
          (withRetriesGo_ne_appError _ _ _ 3 0 5 none (by omega) m)
      | raised e =>
        simp only [hres]
        cases r' with
        | zero =>
          have h := ih (a + 1) (c + (download_file_wrapped att c).invocations)
          simpa only [contTrace] using h
        | succ r'' =>
          have h := ih (a + 1) (c + (download_file_wrapped att c).invocations)
          cases hsa : env.shutAfterFail a with
          | true => simpa only [hsa, contTrace] using h
          | false =>
            cases hsb : env.shutDuringBackoff a with
            | true => exact ⟨false, by simp only [hsa, hsb, stopTrace]⟩
            | false => simpa only [hsa, hsb, contTrace] using h
      | propagated e =>
        simp only [hres]
        cases r' with
        | zero =>
          have h := ih (a + 1) (c + (download_file_wrapped att c).invocations)
          simpa only [contTrace] using h
        | succ r'' =>
          have h := ih (a + 1) (c + (download_file_wrapped att c).invocations)
          cases hsa : env.shutAfterFail a with
          | true => simpa only [hsa, contTrace] using h
          | false =>
            cases hsb : env.shutDuringBackoff a with
            | true => exact ⟨false, by simp only [hsa, hsb, stopTrace]⟩
            | false => simpa only [hsa, hsb, contTrace] using h

/-- C7: whenever the local directory creation succeeds, a manager call
returns a boolean for every stream of sync-layer attempt outcomes and
every shutdown observation pattern: each attempt failure (of the SFTP or
timeout kinds the sync layer raises) is caught inside the routine and
exhaustion produces the boolean false, never an escaping exception. -/
theorem C7_no_escape (att : Nat → AttOutcome) (env : MgrEnv)
    (maxRetries : Nat) (hm : env.makedirsOk = true) :
    ∃ bb, (download_player_stats_db att env maxRetries).result
      = MgrResult.ok bb := by
  unfold download_player_stats_db
  rw [if_neg (by simp [hm])]
  exact mgrGo_result_ok att env maxRetries 0 0

theorem C7_no_escape_witness :
    ∃ bb, (download_player_stats_db allFailAtt quietEnv 3).result
      = MgrResult.ok bb :=
  C7_no_escape allFailAtt quietEnv 3 rfl

/-- A wrapped download over an all-failing underlying stream re-raises
the failure of its third and last attempt. -/
theorem download_file_wrapped_allFail (att : Nat → AttOutcome)
    (es : Nat → DlErr) (hfail : ∀ i, att i = AttOutcome.err (es i))
    (c : Nat) :
    (download_file_wrapped att c).result = RetryResult.raised (es (c + 2)) := by
  have h := withRetriesGo_allFail (attToOp att c) 2
    ("All " ++ toString (3 : Int) ++ " attempts failed")
    (fun n => es (c + n)) 3 (by omega) 0 5 none
    (by intro i hi; simp [attToOp, hfail])
  simpa [download_file_wrapped, with_retries] using h

/-- With every attempt failing and the shutdown event never firing, the
manager loop performs a backoff of min 30 (5 * n) after its n-th
attempt for every attempt but the last, and returns false. -/
theorem mgrGo_allfail_quiet (att : Nat → AttOutcome) (es : Nat → DlErr)
    (env : MgrEnv)
    (hfail : ∀ i, att i = AttOutcome.err (es i))
    (hqt : ∀ a, env.shutTop a = false)
    (hqa : ∀ a, env.shutAfterFail a = false)
    (hqb : ∀ a, env.shutDuringBackoff a = false) :
    ∀ (r a c : Nat),
      (mgrGo att env r a c).backoffs
          = (List.range (r - 1)).map (fun i => min 30 (5 * (a + i + 1))) ∧
      (mgrGo att env r a c).result = MgrResult.ok false := by
  intro r
  induction r with
  | zero => intro a c; constructor <;> simp [mgrGo, stopTrace]
  | succ r' ih =>
    intro a c
    have hw := download_file_wrapped_allFail att es hfail c
    rw [mgrGo, if_neg (by simp [hqt a])]
    cases r' with
    | zero =>
      constructor
      · simp [hw, contTrace, mgrGo, stopTrace]
      · simp [hw, contTrace, mgrGo, stopTrace]
    | succ r'' =>
      have h := ih (a + 1) (c + (download_file_wrapped att c).invocations)
      constructor
      · simp only [hw, hqa a, hqb a, contTrace]
        rw [h.1]
        have hfg : (fun i => min 30 (5 * (a + 1 + i + 1)))
            = (fun i => min 30 (5 * (a + (i + 1) + 1))) :=
          funext fun i => by congr 1; omega
        simp only [Nat.add_sub_cancel, List.range_succ_eq_map, List.map_cons,
          List.map_map]
        congr 1
        rw [hfg]
        simp [Function.comp, Nat.succ_eq_add_one]
      · simp only [hw, hqa a, hqb a, contTrace]
        exact h.2

/-- When the shutdown event fires during the backoff after a failed
attempt that is not the last, the manager loop stops with result false
after that single wrapped call and without completing the wait. -/
theorem mgrGo_interrupt (att : Nat → AttOutcome) (es : Nat → DlErr)
    (env : MgrEnv) (hfail : ∀ i, att i = AttOutcome.err (es i))
    (r'' a c : Nat) (ht : env.shutTop a = false)
    (ha : env.shutAfterFail a = false) (hb : env.shutDuringBackoff a = true) :
    mgrGo att env (r'' + 1 + 1) a c
      = stopTrace false (download_file_wrapped att c).invocations 1 true := by
  have hw := download_file_wrapped_allFail att es hfail c
  rw [mgrGo, if_neg (by simp [ht])]
  simp only [hw, ha, hb]

/-- C5: over a run of failing attempts with the default 3 manager
attempts, the completed backoff before attempt n+1 is min 30 (5 * n)
seconds (the recorded waits are min 30 5 then min 30 10); and when the
shutdown event fires during the first backoff wait, the call returns
false at once — one wrapped call performed, no completed backoff, the
remaining attempts skipped. -/
theorem C5_backoff_and_shutdown (att : Nat → AttOutcome) (es : Nat → DlErr)
    (envq envi : MgrEnv)
    (hfail : ∀ i, att i = AttOutcome.err (es i))
    (hqm : envq.makedirsOk = true)
    (hqt : ∀ a, envq.shutTop a = false)
    (hqa : ∀ a, envq.shutAfterFail a = false)
    (hqb : ∀ a, envq.shutDuringBackoff a = false)
    (him : envi.makedirsOk = true)
    (hit : envi.shutTop 0 = false)
    (hia : envi.shutAfterFail 0 = false)
    (hib : envi.shutDuringBackoff 0 = true) :
    (download_player_stats_db att envq 3).backoffs
        = [min 30 (5 * 1), min 30 (5 * 2)] ∧
    (download_player_stats_db att envq 3).result = MgrResult.ok false ∧
    (download_player_stats_db att envi 3).result = MgrResult.ok false ∧
    (download_player_stats_db att envi 3).interrupted = true ∧
    (download_player_stats_db att envi 3).wrappedCalls = 1 ∧
    (download_player_stats_db att envi 3).backoffs = [] := by
  have hq := mgrGo_allfail_quiet att es envq hfail hqt hqa hqb 3 0 0
  have hdq : download_player_stats_db att envq 3 = mgrGo att envq 3 0 0 := by
    unfold download_player_stats_db
    rw [if_neg (by simp [hqm])]
  have hdi : download_player_stats_db att envi 3 = mgrGo att envi 3 0 0 := by
    unfold download_player_stats_db
    rw [if_neg (by simp [him])]
  have hstep := mgrGo_interrupt att es envi hfail 1 0 0 hit hia hib
  refine ⟨?_, ?_, ?_, ?_, ?_, ?_⟩
  · rw [hdq, hq.1]
    decide
  · rw [hdq]
    exact hq.2
  · rw [hdi]
    show (mgrGo att envi (1 + 1 + 1) 0 0).result = MgrResult.ok false
    rw [hstep]
    rfl
  · rw [hdi]
    show (mgrGo att envi (1 + 1 + 1) 0 0).interrupted = true
    rw [hstep]
    rfl
  · rw [hdi]
    show (mgrGo att envi (1 + 1 + 1) 0 0).wrappedCalls = 1
    rw [hstep]
    rfl
  · rw [hdi]
    show (mgrGo att envi (1 + 1 + 1) 0 0).backoffs = []
    rw [hstep]
    rfl

/-- Error stream for the all-failing witness run. -/
def c5es : Nat → DlErr := fun _ => DlErr.timeout

/-- Environment in which the shutdown event fires during every backoff
wait but is unset at every other polling spot. -/
def intEnv : MgrEnv :=
  { makedirsOk := true, shutTop := fun _ => false,
    shutAfterFail := fun _ => false, shutDuringBackoff := fun _ => true }

theorem C5_backoff_and_shutdown_witness :
    (download_player_stats_db allFailAtt quietEnv 3).backoffs
        = [min 30 (5 * 1), min 30 (5 * 2)] ∧
    (download_player_stats_db allFailAtt quietEnv 3).result
        = MgrResult.ok false ∧
    (download_player_stats_db allFailAtt intEnv 3).result
        = MgrResult.ok false ∧
    (download_player_stats_db allFailAtt intEnv 3).interrupted = true ∧
    (download_player_stats_db allFailAtt intEnv 3).wrappedCalls = 1 ∧
    (download_player_stats_db allFailAtt intEnv 3).backoffs = [] :=
  C5_backoff_and_shutdown allFailAtt c5es quietEnv intEnv
    (fun _ => rfl) rfl (fun _ => rfl) (fun _ => rfl) (fun _ => rfl)
    rfl rfl rfl rfl

/-! ## Single-flight download lock (sftp_manager.py lines 30-32 and 50)

Every download — the periodic loop via _periodic_download_loop line 160
and every on-demand caller via the module-level convenience function —
runs download_player_stats_db of the one module-level manager instance,
whose body enters the async-with on the single asyncio lock created in
init before any fetch or rename work.  The protocol below is the
transition system of that lock discipline: the only way into the
downloading phase is acquiring the one lock. -/

/-- What a task is doing with respect to the download lock: not
requesting a download, waiting at the async-with of line 50, or holding
the lock and executing the download block (lines 51-94, which contain
every fetch into a temp file and every rename onto the mirror path). -/
inductive TaskPhase
  | idle
  | waiting
  | downloading
  deriving DecidableEq, Repr

/-- State of the process: the phase of every task (the periodic loop
and any number of on-demand callers) and the holder of the single
lock. -/
structure LockSys where
  phase : Nat → TaskPhase
  holder : Option Nat

/-- Initial state: every task idle, lock free. -/
def lockInit : LockSys :=
  { phase := fun _ => TaskPhase.idle, holder := none }

/-- Transitions of the lock protocol as the code realizes it: a task
reaches the async-with (periodic tick or on-demand request); the
asyncio lock grants a waiting task entry only while no task holds it;
the holder leaves the block and releases.  No transition enters the
downloading phase except acquire. -/
inductive LockStep : LockSys → LockSys → Prop
  | request (s : LockSys) (t : Nat) :
      s.phase t = TaskPhase.idle →
      LockStep s
        { s with phase := Function.update s.phase t TaskPhase.waiting }
  | acquire (s : LockSys) (t : Nat) :
      s.phase t = TaskPhase.waiting → s.holder = none →
      LockStep s
        { phase := Function.update s.phase t TaskPhase.downloading,
          holder := some t }
  | release (s : LockSys) (t : Nat) :
      s.phase t = TaskPhase.downloading →
      LockStep s
        { phase := Function.update s.phase t TaskPhase.idle,
          holder := none }

/-- States reachable from process start. -/
def lockReachable (s : LockSys) : Prop :=
  Relation.ReflTransGen LockStep lockInit s

/-- The protocol invariant: a downloading task is the lock holder. -/
def lockInv (s : LockSys) : Prop :=
  ∀ t, s.phase t = TaskPhase.downloading → s.holder = some t

theorem lockInv_init : lockInv lockInit := fun _ h => nomatch h

/-- Every transition preserves the holder invariant. -/
theorem lockInv_step (s s' : LockSys) (hs : LockStep s s')
    (hI : lockInv s) : lockInv s' := by
  cases hs with
  | request t ht =>
    intro u hu
    dsimp only at hu ⊢
    by_cases hut : u = t
    · subst hut
      rw [Function.update_same] at hu
      cases hu
    · rw [Function.update_noteq hut] at hu
      exact hI u hu
  | acquire t ht hh =>
    intro u hu
    dsimp only at hu ⊢
    by_cases hut : u = t
    · subst hut; rfl
    · rw [Function.update_noteq hut] at hu
      have hcontra := hI u hu
      rw [hh] at hcontra
      cases hcontra
  | release t ht =>
    intro u hu
    dsimp only at hu ⊢
    by_cases hut : u = t
    · subst hut
      rw [Function.update_same] at hu
      cases hu
    · rw [Function.update_noteq hut] at hu
      have h1 := hI u hu
      have h2 := hI t ht
      rw [h2] at h1
      exact absurd (Option.some.inj h1) (fun e => hut e.symm)

/-- The invariant holds in every reachable state. -/
theorem lockInv_reachable (s : LockSys) (h : lockReachable s) : lockInv s := by
  induction h with
  | refl => exact lockInv_init
  | tail _ hbc ih => exact lockInv_step _ _ hbc ih

/-- C4: in every reachable state of the lock protocol, at most one task
is in the downloading phase — every download first acquires the single
manager lock, so no two downloads (and hence no two temp-file fetches
or mirror renames) execute concurrently. -/
theorem C4_single_flight (s : LockSys) (h : lockReachable s) (t1 t2 : Nat)
    (h1 : s.phase t1 = TaskPhase.downloading)
    (h2 : s.phase t2 = TaskPhase.downloading) : t1 = t2 := by
  have hI := lockInv_reachable s h
  have e1 := hI t1 h1
  have e2 := hI t2 h2
  rw [e1] at e2
  exact Option.some.inj e2

/-- State in which task 0 has requested a download. -/
def lockS1 : LockSys :=
  { phase := Function.update (fun _ => TaskPhase.idle) 0 TaskPhase.waiting,
    holder := none }

/-- State in which task 0 holds the lock and is downloading. -/
def lockS2 : LockSys :=
  { phase := Function.update lockS1.phase 0 TaskPhase.downloading,
    holder := some 0 }

theorem C4_single_flight_witness :
    lockReachable lockS2 ∧ lockS2.phase 0 = TaskPhase.downloading ∧
      (0 : Nat) = 0 := by
  have h1 : LockStep lockInit lockS1 := LockStep.request lockInit 0 rfl
  have h2 : LockStep lockS1 lockS2 :=
    LockStep.acquire lockS1 0 (by simp [lockS1]) rfl
  have hreach : lockReachable lockS2 :=
    Relation.ReflTransGen.tail (Relation.ReflTransGen.single h1) h2
  have hdl : lockS2.phase 0 = TaskPhase.downloading := by simp [lockS2]
  exact ⟨hreach, hdl, C4_single_flight lockS2 hreach 0 0 hdl hdl⟩

end TsmKartel
